import Mathlib

/-!
Verification of the health_v2 repository's onboarding chat flow
(`src/core/chat_manager.py`), prompt assembly (`src/core/prompt_builder.py`),
AI engine error handling (`src/core/health_ai_engine.py`) and the pydantic
data model (`src/core/profile_manager.py`).

Python strings are modelled as Lean `String`s (lists of unicode code points);
the source files contain some mojibake sequences (UTF-8 emoji bytes decoded
as Latin-1, e.g. the welcome wave in `chat_manager.py`), and those exact code
points are reproduced verbatim.  Python floats are modelled as
exact rationals; wall-clock timestamps (`ChatMessage.timestamp`) are never
read by any of the verified logic and are omitted.
-/

set_option maxRecDepth 100000

/-- `leadMatch l pat` is true iff `pat` is a leading segment of `l`
(character-wise equality).  Helper for `segIn`. -/
def leadMatch : List Char → List Char → Bool
  | _, [] => true
  | [], _ :: _ => false
  | c :: cs, d :: ds => c = d && leadMatch cs ds

/-- `segIn pat l` is true iff `pat` occurs as a contiguous segment of `l`;
this models the Python substring test `pat in l` (true for the empty
pattern, as in Python). -/
def segIn (pat : List Char) : List Char → Bool
  | [] => pat.isEmpty
  | c :: cs => leadMatch (c :: cs) pat || segIn pat cs

/-- Python `sub in s` on strings: `sub` occurs contiguously in `s`. -/
def strContains (s sub : String) : Bool :=
  segIn sub.toList s.toList

/-- Python `str.lower`, character-wise.  `Char.toLower` lowers the ASCII
range only, which agrees with Python on every vocabulary word and marker
matched by the code under verification. -/
def strLower (s : String) : String :=
  String.mk (s.toList.map Char.toLower)

/-- Python `any(word in s for word in words)`. -/
def anyContains (s : String) (words : List String) : Bool :=
  words.any (fun w => strContains s w)

/-- Python truthiness of an `Optional[str]` value: `None` and the empty
string are falsy, every other string is truthy. -/
def pyTruthy : Option String → Bool
  | none => false
  | some s => s ≠ ""

/-- Python `o or d` for `o : Optional[str]`: the first truthy operand. -/
def pyOr (o : Option String) (d : String) : String :=
  match o with
  | none => d
  | some s => if s = "" then d else s

/-- Python `str.split()[0]` (split on whitespace runs, first token):
drop leading whitespace; if nothing is left the subscript raises
`IndexError` (modelled as `none`), otherwise the first maximal
non-whitespace run is returned. -/
def pyFirstTokenL (l : List Char) : Option (List Char) :=
  let l' := l.dropWhile Char.isWhitespace
  if l' = [] then none else some (l'.takeWhile (fun c => !c.isWhitespace))

/-- The `UserProfile.validate_name` pydantic validator
(`profile_manager.py` lines 21-26): after removing spaces, hyphens and
apostrophes the remainder must be non-empty and all alphabetic
(Python `str.isalpha()`; alphabetic is modelled as ASCII `Char.isAlpha`). -/
def validName (v : String) : Bool :=
  let stripped := v.toList.filter
    (fun c => c ≠ ' ' && c ≠ '-' && c ≠ Char.ofNat 39)
  (!stripped.isEmpty) && stripped.all (fun c => c.isAlpha)

/-- `ChatState` (`chat_manager.py` lines 6-13). -/
inductive ChatState where
  | welcome
  | asking_focus
  | asking_specific
  | asking_additional
  | onboarding_complete
  | main_chat
deriving DecidableEq, Repr

/-- `ChatMessage` (`chat_manager.py` lines 15-19); the wall-clock
`timestamp` field is omitted (it is written but never read). -/
structure ChatMessage where
  role : String
  content : String
deriving DecidableEq, Repr

/-- `ChatSession` (`chat_manager.py` lines 21-30). -/
structure ChatSession where
  user_id : String
  state : ChatState := ChatState.welcome
  messages : List ChatMessage := []
  focus_area : Option String := none
  specific_answer : Option String := none
  additional_info : Option String := none
deriving DecidableEq, Repr

/-- `OnboardingAnswers` (`profile_manager.py` lines 28-35), field values
only; the pydantic length/literal validation performed at construction is
modelled by `mkOnboardingAnswers`. -/
structure OnboardingAnswers where
  focus_area : String
  specific_question_answer : String
  additional_info : Option String := none
  specific_question : String
deriving DecidableEq, Repr

/-- `UserProfile` (`profile_manager.py` lines 8-19); numeric fields are
exact rationals. -/
structure UserProfile where
  name : String
  age : Nat
  gender : String
  height_cm : ℚ
  weight_kg : ℚ
  exercise_frequency : String
  goal : String

/-- `UserData` (`profile_manager.py` lines 41-48); the timestamps and the
coach style are irrelevant to the claims under verification and the style
is kept as a plain string. -/
structure UserData where
  user_id : String
  profile : UserProfile
  onboarding : Option OnboardingAnswers := none
  coach_style : String := "normal"

/-- Pydantic validation performed when `OnboardingAnswers(...)` is
constructed (`profile_manager.py` lines 28-35): `focus_area` must be the
literal `"food"` or `"workout"`, `specific_question_answer` must have
length between 3 and 1000, `additional_info` (when not `None`) at most
1000; a violation raises `ValidationError`, modelled as `Except.error`. -/
def mkOnboardingAnswers (focus_area specific_question_answer : String)
    (additional_info : Option String) (specific_question : String) :
    Except String OnboardingAnswers :=
  if ¬ (focus_area = "food" ∨ focus_area = "workout") then
    Except.error "ValidationError"
  else if specific_question_answer.length < 3 ∨
      1000 < specific_question_answer.length then
    Except.error "ValidationError"
  else if (match additional_info with
           | none => false
           | some a => 1000 < a.length) then
    Except.error "ValidationError"
  else
    Except.ok { focus_area := focus_area,
                specific_question_answer := specific_question_answer,
                additional_info := additional_info,
                specific_question := specific_question }

/-- The `ChatManager.sessions` dict (`chat_manager.py` line 36). -/
def Sessions : Type := String → Option ChatSession

/-- `self.sessions[uid] = s`. -/
def updateS (sessions : Sessions) (uid : String) (s : ChatSession) : Sessions :=
  fun u => if u = uid then some s else sessions u

/-- `ChatManager._add_message` (`chat_manager.py` lines 211-219). -/
def addMessage (session : ChatSession) (role content : String) : ChatSession :=
  { session with messages := session.messages ++ [{ role := role, content := content }] }

/-- The food vocabulary of `_handle_focus_question` (`chat_manager.py` line 101). -/
def foodWords : List String := ["food", "eat", "diet", "nutrition", "meal"]

/-- The workout vocabulary of `_handle_focus_question` (`chat_manager.py` line 104). -/
def workoutWords : List String := ["workout", "exercise", "gym", "fitness", "training"]

/-- `ChatManager._get_focus_question` (`chat_manager.py` lines 86-94). -/
def getFocusQuestion : String :=
  "**Question 1 of 3:**\n\nWhat would you like help with today?\nâ€¢ **Food** - Nutrition, meal planning, diet optimization\nâ€¢ **Workout** - Exercise routines, training plans, fitness strategies\n\nJust type \x27food\x27 or \x27workout\x27 (or tell me in your own words!)"

/-- The clarification reply of `_handle_focus_question`
(`chat_manager.py` lines 109-114). -/
def clarificationPrompt : String :=
  "I want to make sure I understand! Are you looking for help with:\nâ€¢ **Food** (nutrition, meals, diet)\nâ€¢ **Workout** (exercise, training, fitness)\n\nCould you clarify which one interests you most?"

/-- `ChatManager._get_specific_question` (`chat_manager.py` lines 124-139). -/
def getSpecificQuestion (focus_area : String) : String :=
  if focus_area = "workout" then
    "**Question 2 of 3:**\n\nDo you have access to a gym, or will you be working out at home?\n\nThis helps me recommend the right exercises and equipment for your situation!"
  else
    "**Question 2 of 3:**\n\nWhat do you usually eat in a typical day? Don\x27t worry about being perfect - just give me a rough idea!\n\nFor example: \x27Cereal for breakfast, sandwich for lunch, pasta for dinner\x27 or whatever feels normal for you."

/-- `ChatManager._get_final_question` (`chat_manager.py` lines 151-162). -/
def getFinalQuestion : String :=
  "**Final question (3 of 3):**\n\nIs there anything else I should know to give you the best advice? \n\nThings like:\nâ€¢ Injuries or physical limitations\nâ€¢ Dietary restrictions or preferences\nâ€¢ Time constraints\nâ€¢ Past experiences with diet/exercise\n\nOr just type \x27nothing else\x27 if you\x27re all set!"

/-- The completion reply of `_handle_additional_question`
(`chat_manager.py` lines 169-173). -/
def completionMessage : String :=
  "Perfect! ðŸŽ¯ I have everything I need.\n\nBased on your profile and answers, I\x27m ready to be your personal health coach. Let\x27s start with your first question or goal - what would you like to work on?"

/-- The unknown-session sentinel of `process_user_message`
(`chat_manager.py` line 58). -/
def sessionNotFound : String := "Session not found. Please start over."

/-- The reply of `_handle_onboarding_complete` (`chat_manager.py` line 180). -/
def readyReply : String := "I\x27m ready to help! What\x27s your first question?"

/-- The default reply of `process_user_message` (`chat_manager.py` line 73). -/
def unknownStateReply : String := "I\x27m not sure how to help with that right now."

/-- `ChatManager._generate_welcome_message` (`chat_manager.py` lines 75-84):
`name.split()[0]` raises `IndexError` on an all-whitespace name, modelled
as `none`. -/
def welcomeMid : String :=
  "! ðŸ‘‹ Great to meet you!\n\nI\x27m your AI health coach, and I\x27m here to help you with your goal: \""

def welcomeEnd : String :=
  "\"\n\nBefore we dive in, I\x27d like to ask you a few quick questions to give you the best possible guidance. Sound good?"

def generateWelcomeMessage (ud : UserData) : Option String :=
  match pyFirstTokenL ud.profile.name.toList with
  | none => none
  | some t =>
      some ("Hey " ++ String.mk t ++ welcomeMid ++ ud.profile.goal ++ welcomeEnd)

/-- `ChatManager.start_chat_session` (`chat_manager.py` lines 38-52):
a fresh session is stored under the user id before the welcome message is
generated, so on an invalid name the dict already holds the fresh empty
session when the `IndexError` propagates (return value `none`). -/
def startChatSession (sessions : Sessions) (ud : UserData) :
    Sessions × Option String :=
  let s0 : ChatSession := { user_id := ud.user_id }
  match generateWelcomeMessage ud with
  | none => (updateS sessions ud.user_id s0, none)
  | some w =>
      let s1 := addMessage s0 "assistant" w
      let s2 := addMessage { s1 with state := ChatState.asking_focus }
        "assistant" getFocusQuestion
      (updateS sessions ud.user_id s2, some getFocusQuestion)

/-- `ChatManager._handle_focus_question` (`chat_manager.py` lines 96-122). -/
def handleFocusQuestion (session : ChatSession) (message : String) :
    ChatSession × String :=
  let message_lower := strLower message
  if anyContains message_lower foodWords then
    let session := { session with focus_area := some "food",
                                  state := ChatState.asking_specific }
    let q := getSpecificQuestion "food"
    (addMessage session "assistant" q, q)
  else if anyContains message_lower workoutWords then
    let session := { session with focus_area := some "workout",
                                  state := ChatState.asking_specific }
    let q := getSpecificQuestion "workout"
    (addMessage session "assistant" q, q)
  else
    (addMessage session "assistant" clarificationPrompt, clarificationPrompt)

/-- `ChatManager._handle_specific_question` (`chat_manager.py` lines 141-149). -/
def handleSpecificQuestion (session : ChatSession) (message : String) :
    ChatSession × String :=
  let session := { session with specific_answer := some message,
                                state := ChatState.asking_additional }
  (addMessage session "assistant" getFinalQuestion, getFinalQuestion)

/-- `ChatManager._handle_additional_question` (`chat_manager.py` lines 164-175). -/
def handleAdditionalQuestion (session : ChatSession) (message : String) :
    ChatSession × String :=
  let session := { session with additional_info := some message,
                                state := ChatState.onboarding_complete }
  (addMessage session "assistant" completionMessage, completionMessage)

/-- `ChatManager._handle_onboarding_complete` (`chat_manager.py` lines 177-180):
note that, unlike the other handlers, the reply is returned without being
appended to the session history. -/
def handleOnboardingComplete (session : ChatSession) : ChatSession × String :=
  ({ session with state := ChatState.main_chat }, readyReply)

/-- `ChatManager.process_user_message` (`chat_manager.py` lines 54-73). -/
def processUserMessage (sessions : Sessions) (uid message : String) :
    Sessions × String :=
  match sessions uid with
  | none => (sessions, sessionNotFound)
  | some session =>
      let s1 := addMessage session "user" message
      let step : ChatSession × String :=
        match s1.state with
        | ChatState.asking_focus => handleFocusQuestion s1 message
        | ChatState.asking_specific => handleSpecificQuestion s1 message
        | ChatState.asking_additional => handleAdditionalQuestion s1 message
        | ChatState.onboarding_complete => handleOnboardingComplete s1
        | _ => (s1, unknownStateReply)
      (updateS sessions uid step.1, step.2)

/-- The gym variant of the recorded specific question
(`chat_manager.py` line 190). -/
def gymQuestion : String :=
  "Do you have access to a gym, or will you be working out at home?"

/-- The food variant of the recorded specific question
(`chat_manager.py` line 192). -/
def eatQuestion : String := "What do you usually eat in a typical day?"

/-- The additional-info default sentinel (`chat_manager.py` line 197). -/
def sentinelAdditional : String := "No additional information provided"

/-- `ChatManager.get_onboarding_data` (`chat_manager.py` lines 182-199);
the pydantic `ValidationError` raised by the `OnboardingAnswers`
constructor is modelled as `Except.error`. -/
def getOnboardingData (sessions : Sessions) (uid : String) :
    Except String (Option OnboardingAnswers) :=
  match sessions uid with
  | none => Except.ok none
  | some s =>
      if !(pyTruthy s.focus_area && pyTruthy s.specific_answer) then
        Except.ok none
      else
        let specific_question :=
          if s.focus_area = some "workout" then gymQuestion else eatQuestion
        (mkOnboardingAnswers (s.focus_area.getD "") (s.specific_answer.getD "")
          (some (pyOr s.additional_info sentinelAdditional))
          specific_question).map some

/-- `n` successive calls of `process_user_message` with the same user id
and message (the state part). -/
def iterAdvance (sessions : Sessions) (uid msg : String) : Nat → Sessions
  | 0 => sessions
  | n + 1 => (processUserMessage (iterAdvance sessions uid msg n) uid msg).1

/-- The empty sessions dict (a fresh `ChatManager`). -/
def emptySessions : Sessions := fun _ => none

theorem leadMatch_self_append (pat rest : List Char) :
    leadMatch (pat ++ rest) pat = true := by
  induction pat with
  | nil => simp [leadMatch]
  | cons c cs ih => simp [leadMatch, ih]

theorem segIn_nil_pat (l : List Char) : segIn [] l = true := by
  cases l <;> simp [segIn, leadMatch]

theorem segIn_self_append (pat post : List Char) :
    segIn pat (pat ++ post) = true := by
  cases pat with
  | nil => exact segIn_nil_pat post
  | cons c cs => simp [segIn, leadMatch, leadMatch_self_append]

theorem segIn_append_left (pat x l : List Char) (h : segIn pat l = true) :
    segIn pat (x ++ l) = true := by
  induction x with
  | nil => simpa using h
  | cons d ds ih => simp [segIn, ih]

theorem strContains_eq_segIn (s sub : String) :
    strContains s sub = segIn sub.data s.data := rfl

theorem isAlpha_isWhitespace_false (c : Char) (h : c.isAlpha = true) :
    c.isWhitespace = false := by
  cases hw : c.isWhitespace with
  | false => rfl
  | true =>
      exfalso
      simp only [Char.isWhitespace, Bool.or_eq_true, decide_eq_true_eq] at hw
      rcases hw with ((h1 | h1) | h1) | h1 <;> subst h1 <;>
        exact absurd h (by decide)

theorem pyFirstTokenL_of_nonws (l : List Char) (c : Char)
    (hc : c ∈ l) (hw : c.isWhitespace = false) :
    ∃ t, pyFirstTokenL l = some t ∧ t ≠ [] := by
  induction l with
  | nil => cases hc
  | cons d ds ih =>
      cases hd : d.isWhitespace with
      | true =>
          have hcd : c ∈ ds := by
            cases hc with
            | head => rw [hd] at hw; cases hw
            | tail _ h => exact h
          obtain ⟨t, ht, hne⟩ := ih hcd
          refine ⟨t, ?_, hne⟩
          simpa [pyFirstTokenL, List.dropWhile_cons, hd] using ht
      | false =>
          refine ⟨(d :: ds).takeWhile (fun c => !c.isWhitespace), ?_, ?_⟩
          · simp [pyFirstTokenL, List.dropWhile_cons, hd]
          · simp [List.takeWhile_cons, hd]

theorem validName_first_token (v : String) (h : validName v = true) :
    ∃ t, pyFirstTokenL v.toList = some t ∧ t ≠ [] := by
  have h' := h
  simp only [validName, Bool.and_eq_true, Bool.not_eq_true'] at h'
  obtain ⟨hne, hall⟩ := h'
  obtain ⟨c, hcmem⟩ : ∃ c, c ∈ v.toList.filter
      (fun c => c ≠ ' ' && c ≠ '-' && c ≠ Char.ofNat 39) :=
    List.exists_mem_of_ne_nil _ (List.isEmpty_eq_false.mp hne)
  have halpha : c.isAlpha = true := by
    have := List.all_eq_true.mp hall c hcmem
    simpa using this
  exact pyFirstTokenL_of_nonws v.toList c (List.mem_of_mem_filter hcmem)
    (isAlpha_isWhitespace_false c halpha)

/-- C1: for every profile whose name passes the `UserProfile` name validator,
`start_chat_session` stores a fresh session under the user id (overwriting
any prior session for that id with no merge: the stored session carries
exactly the two newly appended assistant messages and no onboarding
answers), the first appended message is a welcome containing the user's
first name and stated goal, the second is the first scripted question, the
session state is `asking_focus`, and the returned first question is
non-empty and contains the literal marker "Question 1 of 3". -/
theorem start_creates_fresh_session (sessions : Sessions) (ud : UserData)
    (h : validName ud.profile.name = true) :
    ∃ (t : List Char) (w q : String),
      pyFirstTokenL ud.profile.name.toList = some t ∧
      startChatSession sessions ud =
        (updateS sessions ud.user_id
          { user_id := ud.user_id, state := ChatState.asking_focus,
            messages := [{ role := "assistant", content := w },
                         { role := "assistant", content := q }],
            focus_area := none, specific_answer := none,
            additional_info := none },
         some q) ∧
      strContains w (String.mk t) = true ∧
      strContains w ud.profile.goal = true ∧
      q ≠ "" ∧
      strContains q "Question 1 of 3" = true := by
  obtain ⟨t, ht, htne⟩ := validName_first_token ud.profile.name h
  refine ⟨t, "Hey " ++ String.mk t ++ welcomeMid ++ ud.profile.goal ++ welcomeEnd,
    getFocusQuestion, ht, ?_, ?_, ?_, ?_, ?_⟩
  · have ht' : pyFirstTokenL ud.profile.name.data = some t := ht
    simp [startChatSession, generateWelcomeMessage, String.toList, ht',
      addMessage]
  · simp only [strContains, String.toList, String.data_append,
      List.append_assoc]
    exact segIn_append_left _ _ _ (segIn_self_append _ _)
  · simp only [strContains, String.toList, String.data_append,
      List.append_assoc]
    exact segIn_append_left _ _ _ (segIn_append_left _ _ _
      (segIn_append_left _ _ _ (segIn_self_append _ _)))
  · decide
  · decide

/-- Concrete user data for witnesses (the test profile of `test_chat.py`). -/
def udSarah : UserData :=
  { user_id := "sarah_johnson_1",
    profile := { name := "Sarah Johnson", age := 28, gender := "female",
                 height_cm := 165, weight_kg := 68,
                 exercise_frequency := "3-4_times_week",
                 goal := "I want to lose 15 pounds and tone up for summer" } }

theorem start_creates_fresh_session_witness :
    validName udSarah.profile.name = true ∧
    (∃ (t : List Char) (w q : String),
      pyFirstTokenL udSarah.profile.name.toList = some t ∧
      startChatSession emptySessions udSarah =
        (updateS emptySessions udSarah.user_id
          { user_id := udSarah.user_id, state := ChatState.asking_focus,
            messages := [{ role := "assistant", content := w },
                         { role := "assistant", content := q }],
            focus_area := none, specific_answer := none,
            additional_info := none },
         some q) ∧
      strContains w (String.mk t) = true ∧
      strContains w udSarah.profile.goal = true ∧
      q ≠ "" ∧
      strContains q "Question 1 of 3" = true) :=
  ⟨by decide, start_creates_fresh_session emptySessions udSarah (by decide)⟩

/-- C2: in state `asking_focus`, classification is by case-insensitive
keyword containment over the two fixed vocabularies, with the food check
first (an input matching both vocabularies resolves to food); on a match
the focus is stored, the state moves to `asking_specific`, and the
focus-specific follow-up question (different wording for food and
workout) is appended and returned.  The last conjunct evaluates the
claim's example: an input containing both "food" and "gym" resolves
to the food focus. -/
theorem focus_classification (sessions : Sessions) (uid msg : String)
    (s : ChatSession) (h1 : sessions uid = some s)
    (h2 : s.state = ChatState.asking_focus) :
    (anyContains (strLower msg) foodWords = true →
      processUserMessage sessions uid msg =
        (updateS sessions uid
          { s with state := ChatState.asking_specific,
                   focus_area := some "food",
                   messages := s.messages ++
                     [{ role := "user", content := msg },
                      { role := "assistant",
                        content := getSpecificQuestion "food" }] },
         getSpecificQuestion "food")) ∧
    (anyContains (strLower msg) foodWords = false →
     anyContains (strLower msg) workoutWords = true →
      processUserMessage sessions uid msg =
        (updateS sessions uid
          { s with state := ChatState.asking_specific,
                   focus_area := some "workout",
                   messages := s.messages ++
                     [{ role := "user", content := msg },
                      { role := "assistant",
                        content := getSpecificQuestion "workout" }] },
         getSpecificQuestion "workout")) ∧
    getSpecificQuestion "food" ≠ getSpecificQuestion "workout" ∧
    (let s0 : ChatSession := { user_id := "u", state := ChatState.asking_focus }
     (processUserMessage (updateS emptySessions "u" s0) "u"
        "I care about food and the gym").1 "u" =
       some { s0 with state := ChatState.asking_specific,
                      focus_area := some "food",
                      messages := [{ role := "user",
                                     content := "I care about food and the gym" },
                                   { role := "assistant",
                                     content := getSpecificQuestion "food" }] }) := by
  refine ⟨?_, ?_, by decide, by decide⟩
  · intro hf
    simp [processUserMessage, h1, addMessage, h2, handleFocusQuestion, hf,
      List.append_assoc]
  · intro hf hw
    simp [processUserMessage, h1, addMessage, h2, handleFocusQuestion, hf, hw,
      List.append_assoc]

/-- A session waiting on the focus question, used by witnesses. -/
def sessFocus : ChatSession :=
  { user_id := "u1", state := ChatState.asking_focus }

/-- A sessions dict holding only `sessFocus`, used by witnesses. -/
def sessionsFocus : Sessions := updateS emptySessions "u1" sessFocus

theorem focus_classification_witness :
    sessionsFocus "u1" = some sessFocus ∧
    sessFocus.state = ChatState.asking_focus ∧
    ((anyContains (strLower "i want to eat better") foodWords = true →
      processUserMessage sessionsFocus "u1" "i want to eat better" =
        (updateS sessionsFocus "u1"
          { sessFocus with
              state := ChatState.asking_specific,
              focus_area := some "food",
              messages := sessFocus.messages ++
                [{ role := "user", content := "i want to eat better" },
                 { role := "assistant",
                   content := getSpecificQuestion "food" }] },
         getSpecificQuestion "food")) ∧
    (anyContains (strLower "i want to eat better") foodWords = false →
     anyContains (strLower "i want to eat better") workoutWords = true →
      processUserMessage sessionsFocus "u1" "i want to eat better" =
        (updateS sessionsFocus "u1"
          { sessFocus with
              state := ChatState.asking_specific,
              focus_area := some "workout",
              messages := sessFocus.messages ++
                [{ role := "user", content := "i want to eat better" },
                 { role := "assistant",
                   content := getSpecificQuestion "workout" }] },
         getSpecificQuestion "workout")) ∧
    getSpecificQuestion "food" ≠ getSpecificQuestion "workout" ∧
    (let s0 : ChatSession := { user_id := "u", state := ChatState.asking_focus }
     (processUserMessage (updateS emptySessions "u" s0) "u"
        "I care about food and the gym").1 "u" =
       some { s0 with state := ChatState.asking_specific,
                      focus_area := some "food",
                      messages := [{ role := "user",
                                     content := "I care about food and the gym" },
                                   { role := "assistant",
                                     content := getSpecificQuestion "food" }] })) :=
  ⟨rfl, rfl,
   focus_classification sessionsFocus "u1" "i want to eat better" sessFocus rfl rfl⟩

/-- One clarification step of `_handle_focus_question` on unmatched input:
the state and the stored answers are untouched, only the user message and
the clarification prompt are appended.  Shared helper. -/
theorem focus_clarification_step (sessions : Sessions) (uid msg : String)
    (s : ChatSession) (h1 : sessions uid = some s)
    (h2 : s.state = ChatState.asking_focus)
    (hf : anyContains (strLower msg) foodWords = false)
    (hw : anyContains (strLower msg) workoutWords = false) :
    processUserMessage sessions uid msg =
      (updateS sessions uid
        { s with messages := s.messages ++
            [{ role := "user", content := msg },
             { role := "assistant", content := clarificationPrompt }] },
       clarificationPrompt) := by
  simp [processUserMessage, h1, addMessage, h2, handleFocusQuestion, hf, hw,
    List.append_assoc]

/-- C3: in state `asking_focus`, an input matching neither vocabulary
leaves the session in `asking_focus` with `focus_area` unset and appends
and returns the clarification prompt, and this holds after any number `n`
of repeated identical calls: unrecognized focus input never advances the
state. -/
theorem unrecognized_focus_loops (sessions : Sessions) (uid msg : String)
    (s : ChatSession) (h1 : sessions uid = some s)
    (h2 : s.state = ChatState.asking_focus) (h3 : s.focus_area = none)
    (hf : anyContains (strLower msg) foodWords = false)
    (hw : anyContains (strLower msg) workoutWords = false) (n : Nat) :
    ∃ s', iterAdvance sessions uid msg n uid = some s' ∧
      s'.state = ChatState.asking_focus ∧
      s'.focus_area = none ∧
      processUserMessage (iterAdvance sessions uid msg n) uid msg =
        (updateS (iterAdvance sessions uid msg n) uid
          { s' with messages := s'.messages ++
              [{ role := "user", content := msg },
               { role := "assistant", content := clarificationPrompt }] },
         clarificationPrompt) := by
  induction n with
  | zero =>
      exact ⟨s, h1, h2, h3,
        focus_clarification_step sessions uid msg s h1 h2 hf hw⟩
  | succ n ih =>
      obtain ⟨s', hl, hst, hfa, heq⟩ := ih
      have hstep : iterAdvance sessions uid msg (n + 1) uid =
          some { s' with messages := s'.messages ++
              [{ role := "user", content := msg },
               { role := "assistant", content := clarificationPrompt }] } := by
        simp only [iterAdvance, heq]
        simp [updateS]
      refine ⟨_, hstep, hst, hfa, ?_⟩
      exact focus_clarification_step _ uid msg _ hstep hst hf hw

theorem unrecognized_focus_loops_witness :
    sessionsFocus "u1" = some sessFocus ∧
    sessFocus.state = ChatState.asking_focus ∧
    sessFocus.focus_area = none ∧
    anyContains (strLower "purple") foodWords = false ∧
    anyContains (strLower "purple") workoutWords = false ∧
    (∃ s', iterAdvance sessionsFocus "u1" "purple" 3 "u1" = some s' ∧
      s'.state = ChatState.asking_focus ∧
      s'.focus_area = none ∧
      processUserMessage (iterAdvance sessionsFocus "u1" "purple" 3) "u1" "purple" =
        (updateS (iterAdvance sessionsFocus "u1" "purple" 3) "u1"
          { s' with messages := s'.messages ++
              [{ role := "user", content := "purple" },
               { role := "assistant", content := clarificationPrompt }] },
         clarificationPrompt)) :=
  ⟨rfl, rfl, rfl, by decide, by decide,
   unrecognized_focus_loops sessionsFocus "u1" "purple" sessFocus rfl rfl rfl
     (by decide) (by decide) 3⟩

/-- C6: `process_user_message` with a user id for which no session exists
returns the literal sentinel string and leaves the sessions dict exactly
as it was (no session created, nothing mutated, no exception). -/
theorem unknown_session_sentinel (sessions : Sessions) (uid message : String)
    (h : sessions uid = none) :
    processUserMessage sessions uid message = (sessions, sessionNotFound) := by
  simp [processUserMessage, h]

theorem unknown_session_sentinel_witness :
    emptySessions "ghost" = none ∧
    processUserMessage emptySessions "ghost" "hello" =
      (emptySessions, sessionNotFound) ∧
    sessionNotFound = "Session not found. Please start over." :=
  ⟨rfl, unknown_session_sentinel emptySessions "ghost" "hello" rfl, rfl⟩

/-- C10: in state `onboarding_complete`, `process_user_message` moves the
session to `main_chat` and returns the fixed ready reply, but — unlike
every other scripted onboarding reply — does not append it: the stored
history ends with the user's own message. -/
theorem ready_reply_not_recorded (sessions : Sessions)
    (uid message : String) (s : ChatSession) (h1 : sessions uid = some s)
    (h2 : s.state = ChatState.onboarding_complete) :
    processUserMessage sessions uid message =
      (updateS sessions uid
        { s with state := ChatState.main_chat,
                 messages := s.messages ++
                   [{ role := "user", content := message }] },
       readyReply) ∧
    (s.messages ++ [({ role := "user", content := message } : ChatMessage)]).getLast? =
      some ({ role := "user", content := message } : ChatMessage) := by
  constructor
  · simp [processUserMessage, h1, addMessage, h2, handleOnboardingComplete]
  · exact List.getLast?_concat s.messages

/-- A session that has just finished onboarding, used by witnesses. -/
def sessDone : ChatSession :=
  { user_id := "u2", state := ChatState.onboarding_complete,
    messages := [{ role := "assistant", content := completionMessage }],
    focus_area := some "food", specific_answer := some "pasta mostly",
    additional_info := some "nothing else" }

/-- A sessions dict holding only `sessDone`, used by witnesses. -/
def sessionsDone : Sessions := updateS emptySessions "u2" sessDone

theorem ready_reply_not_recorded_witness :
    sessionsDone "u2" = some sessDone ∧
    sessDone.state = ChatState.onboarding_complete ∧
    (processUserMessage sessionsDone "u2" "let us begin" =
      (updateS sessionsDone "u2"
        { sessDone with
            state := ChatState.main_chat,
            messages := sessDone.messages ++
              [{ role := "user", content := "let us begin" }] },
       readyReply) ∧
    (sessDone.messages ++
        [({ role := "user", content := "let us begin" } : ChatMessage)]).getLast? =
      some ({ role := "user", content := "let us begin" } : ChatMessage)) :=
  ⟨rfl, rfl,
   ready_reply_not_recorded sessionsDone "u2" "let us begin" sessDone rfl rfl⟩

/-- A session waiting on the specific question with focus already
resolved, used for the C4 scenario. -/
def sessSpecific : ChatSession :=
  { user_id := "u", state := ChatState.asking_specific,
    focus_area := some "food" }

/-- C4 counterexample: run the flow up to answering the specific question
with the two-character reply "no".  Both `focus_area` and
`specific_answer` are then populated and the additional question is not
yet answered, so the claim demands a present `OnboardingAnswers`; the
code instead raises a pydantic `ValidationError`, because
`specific_question_answer` carries `min_length=3`. -/
theorem onboarding_extraction_counterexample :
    ((processUserMessage (updateS emptySessions "u" sessSpecific) "u" "no").1 "u").map
        (fun s => (s.state, s.focus_area, s.specific_answer)) =
      some (ChatState.asking_additional, some "food", some "no") ∧
    getOnboardingData
        (processUserMessage (updateS emptySessions "u" sessSpecific) "u" "no").1 "u" =
      Except.error "ValidationError" :=
  ⟨by decide, by rfl⟩

/-- C4 (amended): `get_onboarding_data` returns absent whenever
`focus_area` or `specific_answer` is unpopulated (unknown ids included),
and immediately after the `asking_specific` question is answered — before
the additional question is answered — it returns a present
`OnboardingAnswers`, provided the answer's length lies within the
pydantic bounds 3..1000 (otherwise the `OnboardingAnswers` constructor
raises a `ValidationError`); in the returned value `additional_info`
defaults to the fixed sentinel and `specific_question` is one of two
fixed strings determined solely by `focus_area`, not recorded at
ask-time. -/
theorem onboarding_extraction (sessions : Sessions) (uid ans f : String)
    (s : ChatSession) (h1 : sessions uid = some s)
    (hst : s.state = ChatState.asking_specific)
    (hf : s.focus_area = some f) (hfv : f = "food" ∨ f = "workout")
    (hsa : s.specific_answer = none) (hai : s.additional_info = none)
    (hlen : 3 ≤ ans.length ∧ ans.length ≤ 1000) :
    getOnboardingData sessions uid = Except.ok none ∧
    (∀ s2 : ChatSession,
      pyTruthy s2.focus_area = false ∨ pyTruthy s2.specific_answer = false →
      getOnboardingData (updateS sessions uid s2) uid = Except.ok none) ∧
    getOnboardingData emptySessions uid = Except.ok none ∧
    getOnboardingData (processUserMessage sessions uid ans).1 uid =
      Except.ok (some
        { focus_area := f, specific_question_answer := ans,
          additional_info := some sentinelAdditional,
          specific_question :=
            if f = "workout" then gymQuestion else eatQuestion }) := by
  obtain ⟨hlo, hhi⟩ := hlen
  have hne : ans ≠ "" := by
    intro h
    rw [h] at hlo
    simp at hlo
  have hlen' : ¬ (ans.length < 3 ∨ 1000 < ans.length) := by omega
  refine ⟨?_, ?_, ?_, ?_⟩
  · simp [getOnboardingData, h1, hsa, pyTruthy]
  · intro s2 hor
    rcases hor with h | h <;> simp [getOnboardingData, updateS, h]
  · simp [getOnboardingData, emptySessions]
  · rcases hfv with hfv | hfv <;> subst hfv <;>
      simp [processUserMessage, h1, hst, addMessage, handleSpecificQuestion,
        getOnboardingData, updateS, pyTruthy, hne, hf, hai, pyOr,
        mkOnboardingAnswers, hlen'] <;>
      rw [if_neg (by decide)] <;> rfl

/-- A workout-focus session waiting on the specific question, used by the
C4 witness. -/
def sessSpecificW : ChatSession :=
  { user_id := "w", state := ChatState.asking_specific,
    focus_area := some "workout" }

/-- A sessions dict holding only `sessSpecificW`. -/
def sessionsSpecificW : Sessions := updateS emptySessions "w" sessSpecificW

theorem onboarding_extraction_witness :
    sessionsSpecificW "w" = some sessSpecificW ∧
    sessSpecificW.state = ChatState.asking_specific ∧
    sessSpecificW.focus_area = some "workout" ∧
    ("workout" = "food" ∨ "workout" = "workout") ∧
    sessSpecificW.specific_answer = none ∧
    sessSpecificW.additional_info = none ∧
    (3 ≤ "I have a gym membership".length ∧
     "I have a gym membership".length ≤ 1000) ∧
    (getOnboardingData sessionsSpecificW "w" = Except.ok none ∧
    (∀ s2 : ChatSession,
      pyTruthy s2.focus_area = false ∨ pyTruthy s2.specific_answer = false →
      getOnboardingData (updateS sessionsSpecificW "w" s2) "w" = Except.ok none) ∧
    getOnboardingData emptySessions "w" = Except.ok none ∧
    getOnboardingData
        (processUserMessage sessionsSpecificW "w" "I have a gym membership").1 "w" =
      Except.ok (some
        { focus_area := "workout",
          specific_question_answer := "I have a gym membership",
          additional_info := some sentinelAdditional,
          specific_question :=
            if "workout" = "workout" then gymQuestion else eatQuestion })) :=
  ⟨rfl, rfl, rfl, Or.inr rfl, rfl, rfl, by decide,
   onboarding_extraction sessionsSpecificW "w" "I have a gym membership"
     "workout" sessSpecificW rfl rfl rfl (Or.inr rfl) rfl rfl (by decide)⟩

/-- The rate-limit reply of `_get_rate_limit_response`
(`health_ai_engine.py` lines 97-102). -/
def rateLimitResponse : String :=
  "I\x27m getting a lot of requests right now! Please wait a moment and try again. In the meantime, remember that consistency is key to reaching your health goals! ðŸ’ª"

/-- `getattr(user_data, 'onboarding', {})` in `_get_fallback_response`
(`health_ai_engine.py` line 107): the attribute always exists on the
pydantic `UserData` model, so the `{}` default is never used and the
field value — Python `None` or an `OnboardingAnswers` model — is
returned. -/
def pyGetAttrOnboarding (ud : UserData) : Option OnboardingAnswers :=
  ud.onboarding

/-- The `.get('focus_area', 'health')` call of `_get_fallback_response`
(`health_ai_engine.py` line 107): its receiver is either Python `None`
or a pydantic `OnboardingAnswers` model, and neither type defines a
`.get` method, so the call raises `AttributeError` for every input
(modelled as `Except.error`). -/
def pyDotGetFocusArea (o : Option OnboardingAnswers) : Except String String :=
  match o with
  | none =>
      Except.error "AttributeError: \x27NoneType\x27 object has no attribute \x27get\x27"
  | some _ =>
      Except.error "AttributeError: \x27OnboardingAnswers\x27 object has no attribute \x27get\x27"

/-- `HealthAIEngine._get_fallback_response` (`health_ai_engine.py`
lines 104-112); the string it is written to return is built only after
the `.get` call succeeds. -/
def getFallbackResponse (ud : UserData) (user_message : String) :
    Except String String :=
  match pyFirstTokenL ud.profile.name.toList with
  | none => Except.error "IndexError"
  | some t =>
      match pyDotGetFocusArea (pyGetAttrOnboarding ud) with
      | Except.error e => Except.error e
      | Except.ok focus =>
          Except.ok ("Hi " ++ String.mk t ++ "! I\x27m having a technical moment, but I\x27m still here to help with your " ++ focus ++ " goals. Could you try rephrasing your question? I want to make sure I give you the best advice possible!")

/-- The `except` branch of `generate_coaching_response`
(`health_ai_engine.py` lines 58-65), applied to the text of the caught
exception: rate-limit texts get the canned rate-limit reply, texts
containing "invalid" echo the error, and any other failure falls
through to `_get_fallback_response`. -/
def coachingResponseOnError (ud : UserData) (errText user_message : String) :
    Except String String :=
  if strContains (strLower errText) "rate_limit" then
    Except.ok rateLimitResponse
  else if strContains (strLower errText) "invalid" then
    Except.ok ("I apologize, but I encountered an issue processing your request: " ++ errText)
  else getFallbackResponse ud user_message

/-- The Mike Chen test user of `test_ai.py` (onboarding left `None`). -/
def udMike : UserData :=
  { user_id := "mike_chen_1",
    profile := { name := "Mike Chen", age := 32, gender := "male",
                 height_cm := 180, weight_kg := 85,
                 exercise_frequency := "rarely",
                 goal := "I want to build muscle and get stronger" } }

/-- A variant of the Mike Chen user whose onboarding data is populated
(the `OnboardingAnswers` constructed in `test_ai.py`). -/
def udMikeOnboarded : UserData :=
  { udMike with
      onboarding := some
        ({ focus_area := "workout",
           specific_question_answer := "I have a gym membership but I\x27m intimidated",
           additional_info := some "I have never really lifted weights before",
           specific_question := "Do you have access to a gym?" } : OnboardingAnswers) }

/-- C5 evaluated at failing inputs: for the Mike Chen test user of
`test_ai.py` and the generic failure text "boom" (signalling neither
rate limiting — first conjunct — nor an invalid request — second
conjunct), the claim demands a personalized fallback string; instead
the fallback path itself raises `AttributeError` (the `.get` call on a
receiver that is `None` or a pydantic model), which propagates to the
caller.  The raise does not depend on whether onboarding data is
populated (last conjunct). -/
theorem fallback_raises_attribute_error :
    strContains (strLower "boom") "rate_limit" = false ∧
    strContains (strLower "boom") "invalid" = false ∧
    coachingResponseOnError udMike "boom" "best routine?" =
      Except.error "AttributeError: \x27NoneType\x27 object has no attribute \x27get\x27" ∧
    coachingResponseOnError udMikeOnboarded "boom" "best routine?" =
      Except.error "AttributeError: \x27OnboardingAnswers\x27 object has no attribute \x27get\x27" :=
  ⟨by decide, by decide, rfl, rfl⟩

/-- BMI as computed in `_build_user_context` (`prompt_builder.py`
lines 58-60): `height_m = height_cm / 100`, `bmi = weight_kg /
height_m ** 2`. -/
def bmiOf (height_cm weight_kg : ℚ) : ℚ :=
  weight_kg / ((height_cm / 100) ^ 2)

/-- `PromptBuilder._get_bmi_category` (`prompt_builder.py` lines 176-185). -/
def getBmiCategory (bmi : ℚ) : String :=
  if bmi < 18.5 then "underweight"
  else if bmi < 25 then "normal weight"
  else if bmi < 30 then "overweight"
  else "obese"

/-- Python `int(...)` on a rational: truncation toward zero. -/
def pyInt (q : ℚ) : ℤ := if 0 ≤ q then ⌊q⌋ else ⌈q⌉

/-- Python float `a % b`: `a - b * floor(a / b)` (result has the sign of
the divisor). -/
def pyFloatMod (a b : ℚ) : ℚ := a - b * (⌊a / b⌋ : ℤ)

/-- `PromptBuilder._cm_to_feet` (`prompt_builder.py` lines 187-192):
`inches = cm / 2.54`, `feet = int(inches // 12)` (float floor division is
already integral, so the cast is exact) and
`remaining_inches = int(inches % 12)`. -/
def cmToFeet (cm : ℚ) : ℤ × ℤ :=
  let inches := cm / 2.54
  (⌊inches / 12⌋, pyInt (pyFloatMod inches 12))

/-- `PromptBuilder._kg_to_lbs` (`prompt_builder.py` lines 194-196):
`int(kg * 2.20462)`. -/
def kgToLbs (kg : ℚ) : ℤ := pyInt (kg * 2.20462)

/-- The `f"{bmi:.1f}"` rendering of `_build_user_context` expressed in
tenths: the displayed one-decimal value is `bmiTenths bmi / 10`.  Python
formats the underlying double with round-half-even, which agrees with
`round` away from exact `.x5` ties (the case for every value arising
below). -/
def bmiTenths (b : ℚ) : ℤ := round (10 * b)

/-- The weight conversion as claim C8 states it: multiply by 2.20462 and
round to the nearest integer. -/
def claimKgToLbs (kg : ℚ) : ℤ := round (kg * 2.20462)

/-- C7: the user-context block derives BMI as weight over squared height
in metres and classifies it into exactly the four claimed buckets
(underweight below 18.5, normal 18.5 to below 25, overweight 25 to below
30, obese at least 30); for height 180 cm and weight 85 kg the BMI is
2125/81, rendered to one decimal as 26.2, with category "overweight". -/
theorem bmi_derivation_and_buckets :
    (∀ b : ℚ,
      (b < 18.5 → getBmiCategory b = "underweight") ∧
      (18.5 ≤ b → b < 25 → getBmiCategory b = "normal weight") ∧
      (25 ≤ b → b < 30 → getBmiCategory b = "overweight") ∧
      (30 ≤ b → getBmiCategory b = "obese")) ∧
    bmiOf 180 85 = 2125 / 81 ∧
    bmiTenths (bmiOf 180 85) = 262 ∧
    getBmiCategory (bmiOf 180 85) = "overweight" := by
  have hbmi : bmiOf 180 85 = 2125 / 81 := by norm_num [bmiOf]
  refine ⟨?_, hbmi, ?_, ?_⟩
  · intro b
    refine ⟨?_, ?_, ?_, ?_⟩
    · intro h
      simp [getBmiCategory, h]
    · intro h1 h2
      unfold getBmiCategory
      rw [if_neg (by linarith), if_pos h2]
    · intro h1 h2
      unfold getBmiCategory
      rw [if_neg (by linarith), if_neg (by linarith), if_pos h2]
    · intro h
      unfold getBmiCategory
      rw [if_neg (by linarith), if_neg (by linarith), if_neg (by linarith)]
  · rw [bmiTenths, hbmi, round_eq]
    norm_num
  · rw [hbmi]
    unfold getBmiCategory
    rw [if_neg (by norm_num), if_neg (by norm_num), if_pos (by norm_num)]

theorem floor_div_twelve (x : ℚ) : ⌊x / 12⌋ = ⌊x⌋ / 12 := by
  have h1 : (12 : ℤ) * (⌊x⌋ / 12) + ⌊x⌋ % 12 = ⌊x⌋ := Int.ediv_add_emod ⌊x⌋ 12
  have h2 : (0 : ℤ) ≤ ⌊x⌋ % 12 := Int.emod_nonneg ⌊x⌋ (by norm_num)
  have h3 : ⌊x⌋ % 12 ≤ 11 := by
    have := Int.emod_lt_of_pos ⌊x⌋ (show (0:ℤ) < 12 by norm_num)
    omega
  have hf : (⌊x⌋ : ℚ) ≤ x := Int.floor_le x
  have hf2 : x < ⌊x⌋ + 1 := Int.lt_floor_add_one x
  have hc1 : (12 : ℚ) * ((⌊x⌋ / 12 : ℤ) : ℚ) + ((⌊x⌋ % 12 : ℤ) : ℚ) = (⌊x⌋ : ℚ) := by
    exact_mod_cast congrArg (fun z : ℤ => (z : ℚ)) h1
  have hc2 : (0 : ℚ) ≤ ((⌊x⌋ % 12 : ℤ) : ℚ) := by exact_mod_cast h2
  have hc3 : ((⌊x⌋ % 12 : ℤ) : ℚ) ≤ 11 := by exact_mod_cast h3
  rw [Int.floor_eq_iff]
  constructor
  · rw [le_div_iff₀ (show (0:ℚ) < 12 by norm_num)]
    linarith
  · rw [div_lt_iff₀ (show (0:ℚ) < 12 by norm_num)]
    linarith

theorem pyFloatMod_twelve (x : ℚ) : pyInt (pyFloatMod x 12) = ⌊x⌋ % 12 := by
  have hpos : (0:ℚ) < 12 := by norm_num
  have h0 : (0 : ℚ) ≤ pyFloatMod x 12 := by
    have h := Int.sub_floor_div_mul_nonneg x hpos
    rw [pyFloatMod]
    linarith
  rw [pyInt, if_pos h0, pyFloatMod]
  have hx : x - 12 * ((⌊x / 12⌋ : ℤ) : ℚ) = x - ((12 * ⌊x / 12⌋ : ℤ) : ℚ) := by
    push_cast
    ring
  rw [hx, Int.floor_sub_int, floor_div_twelve]
  omega

/-- C8 counterexample: for the in-range weight 34 kg the code truncates
`34 * 2.20462 = 74.95708` to 74 pounds, while rounding to the nearest
integer, as the claim states, would give 75. -/
theorem pounds_rounding_counterexample :
    (30 : ℚ) ≤ 34 ∧ (34 : ℚ) ≤ 300 ∧
    kgToLbs 34 = 74 ∧ claimKgToLbs 34 = 75 ∧
    kgToLbs 34 ≠ claimKgToLbs 34 := by
  refine ⟨by norm_num, by norm_num, ?_, ?_, ?_⟩
  · norm_num [kgToLbs, pyInt]
  · norm_num [claimKgToLbs, round_eq]
  · norm_num [kgToLbs, claimKgToLbs, pyInt, round_eq]

/-- C8 (amended): for every in-range profile the height conversion
truncates exactly as the claim states — total inches = cm/2.54, feet =
total inches div 12, inches = the remainder, both integral — while the
weight in pounds is `kg * 2.20462` truncated to an integer (floor, for
these nonnegative inputs), not rounded to the nearest integer. -/
theorem unit_conversions (cm kg : ℚ) (hcm : 100 ≤ cm ∧ cm ≤ 250)
    (hkg : 30 ≤ kg ∧ kg ≤ 300) :
    cmToFeet cm = (⌊cm / 2.54⌋ / 12, ⌊cm / 2.54⌋ % 12) ∧
    kgToLbs kg = ⌊kg * 2.20462⌋ := by
  constructor
  · simp only [cmToFeet]
    rw [floor_div_twelve (cm / 2.54), pyFloatMod_twelve (cm / 2.54)]
  · rw [kgToLbs, pyInt, if_pos]
    have h0 : (0 : ℚ) ≤ kg := by linarith [hkg.1]
    exact mul_nonneg h0 (by norm_num)

theorem unit_conversions_witness :
    ((100 : ℚ) ≤ 180 ∧ (180 : ℚ) ≤ 250) ∧
    ((30 : ℚ) ≤ 85 ∧ (85 : ℚ) ≤ 300) ∧
    (cmToFeet 180 = (⌊(180 : ℚ) / 2.54⌋ / 12, ⌊(180 : ℚ) / 2.54⌋ % 12) ∧
     kgToLbs 85 = ⌊(85 : ℚ) * 2.20462⌋) ∧
    cmToFeet 180 = (5, 10) ∧ kgToLbs 85 = 187 :=
  ⟨⟨by norm_num, by norm_num⟩, ⟨by norm_num, by norm_num⟩,
   unit_conversions 180 85 ⟨by norm_num, by norm_num⟩ ⟨by norm_num, by norm_num⟩,
   by norm_num [cmToFeet, pyInt, pyFloatMod, Prod.ext_iff],
   by norm_num [kgToLbs, pyInt]⟩

/-- The onboarding scaffold markers filtered out by
`build_conversation_context` (`prompt_builder.py` lines 144-145); this
file, unlike `chat_manager.py`, is clean UTF-8, so the completion marker
carries the genuine emoji. -/
def scaffoldMarkers : List String :=
  ["question 1 of 3", "question 2 of 3", "final question", "perfect! 🎯"]

/-- `any(keyword in msg.content.lower() for keyword in ...)`
(`prompt_builder.py` lines 144-145). -/
def isScaffold (m : ChatMessage) : Bool :=
  scaffoldMarkers.any (fun k => strContains (strLower m.content) k)

/-- The last `n` elements of a list (Python `l[-n:]`, the whole list when
`n ≥ len(l)`). -/
def takeLast (n : Nat) (l : List ChatMessage) : List ChatMessage :=
  l.drop (l.length - n)

/-- One `USER:`/`COACH:` line of the conversation block
(`prompt_builder.py` lines 152-154). -/
def renderLine (m : ChatMessage) : String :=
  (if m.role = "user" then "USER" else "COACH") ++ ": " ++ m.content ++ "\n"

/-- `PromptBuilder.build_conversation_context` (`prompt_builder.py`
lines 133-156) at its default `max_messages = 10`; the `context += ...`
loop is a fold. -/
def buildConversationContext (chat_history : List ChatMessage) : String :=
  if chat_history = [] then "This is the start of your conversation."
  else
    let recent_messages :=
      if chat_history.length > 10 then takeLast 10 chat_history
      else chat_history
    let conversation_messages :=
      recent_messages.filter (fun m => !(isScaffold m))
    if conversation_messages = [] then
      "This is the beginning of your coaching conversation."
    else
      (takeLast 5 conversation_messages).foldl
        (fun acc m => acc ++ renderLine m) "RECENT CONVERSATION:\n"

/-- Concatenation of a list of strings. -/
def concatAll : List String → String
  | [] => ""
  | s :: rest => s ++ concatAll rest

/-- The conversation block exactly as the C9 spec text describes it:
take at most the last 10 messages, remove every message whose lowered
text contains a scaffold marker, keep at most the last 5 survivors
rendered as `USER:`/`COACH:` lines in original order, and substitute the
fixed placeholder when no message survives. -/
def specConversationContext (chat_history : List ChatMessage) : String :=
  let survivors := (takeLast 10 chat_history).filter (fun m => !(isScaffold m))
  if survivors = [] then "This is the beginning of your coaching conversation."
  else "RECENT CONVERSATION:\n" ++ concatAll ((takeLast 5 survivors).map renderLine)

theorem foldl_render_eq (l : List ChatMessage) (acc : String) :
    l.foldl (fun a m => a ++ renderLine m) acc =
      acc ++ concatAll (l.map renderLine) := by
  induction l generalizing acc with
  | nil => simp [concatAll]
  | cons x xs ih => simp [concatAll, ih, String.append_assoc]

/-- The claim's example history: the literal scaffold strings alongside
two genuine exchanges. -/
def exampleHistC9 : List ChatMessage :=
  [{ role := "assistant",
     content := "**Question 1 of 3:** What would you like help with today?" },
   { role := "assistant",
     content := "**Question 2 of 3:** What do you usually eat?" },
   { role := "assistant",
     content := "**Final question (3 of 3):** anything else?" },
   { role := "assistant", content := "Perfect! 🎯 I have everything I need." },
   { role := "user", content := "how much protein should I eat?" },
   { role := "assistant", content := "about 1.6 grams per kilogram each day" },
   { role := "user", content := "and how much water?" },
   { role := "assistant", content := "two to three liters is a solid target" }]

/-- C9: for every non-empty history the assembled conversation block
equals the spec's description — at most the last 10 messages, scaffold
messages removed by case-insensitive marker containment, at most the
last 5 survivors rendered in original order, fixed placeholder when
nothing survives — and on the claim's example history (the literal
scaffold strings alongside two genuine exchanges) the block contains
exactly the two genuine exchanges. -/
theorem conversation_context_filters (hist : List ChatMessage)
    (h : hist ≠ []) :
    buildConversationContext hist = specConversationContext hist ∧
    buildConversationContext exampleHistC9 =
      "RECENT CONVERSATION:\nUSER: how much protein should I eat?\nCOACH: about 1.6 grams per kilogram each day\nUSER: and how much water?\nCOACH: two to three liters is a solid target\n" := by
  constructor
  · simp only [buildConversationContext, specConversationContext]
    rw [if_neg h]
    have hrec : (if hist.length > 10 then takeLast 10 hist else hist) =
        takeLast 10 hist := by
      split_ifs with hl
      · rfl
      · unfold takeLast
        have hz : hist.length - 10 = 0 := by omega
        rw [hz, List.drop_zero]
    rw [hrec]
    by_cases hs : (takeLast 10 hist).filter (fun m => !(isScaffold m)) = []
    · rw [if_pos hs, if_pos hs]
    · rw [if_neg hs, if_neg hs]
      exact foldl_render_eq _ _
  · decide

theorem conversation_context_filters_witness :
    exampleHistC9 ≠ [] ∧
    (buildConversationContext exampleHistC9 =
        specConversationContext exampleHistC9 ∧
     buildConversationContext exampleHistC9 =
      "RECENT CONVERSATION:\nUSER: how much protein should I eat?\nCOACH: about 1.6 grams per kilogram each day\nUSER: and how much water?\nCOACH: two to three liters is a solid target\n") :=
  ⟨by decide, conversation_context_filters exampleHistC9 (by decide)⟩
